import Mathlib

/-!
Shallow embedding of `build.py` (the single source file of
dmarkey/ha-desktop-remote's build tooling).

The script is modelled as pure state-passing code over a `World` record:
the direct children of the working directory, the pending stdin lines,
the console output so far, the shell commands handed to `subprocess.run`
so far, and the paths removed by cleanup.  Static facts about the host —
which shell commands exit with status 0, their captured stdout/stderr,
which packages are importable, the value of `sys.executable` — live in
`Env`.

Conventions of the embedding:
* a Python function that can fall through without `return` has result
  type `Option Bool`: `none` models Python `None`, `some b` a real bool;
  the step loop of `main` tests Python truthiness via `truthy`;
* `sys.exit(1)` and a normal return of `main` become the `Nat` exit code
  in the result; `input()` on exhausted stdin raises `EOFError`, which is
  modelled as an overall `none` result (uncaught exception);
* `World.out` records each `print` call in order (newline handling of
  `end=""` is abstracted away: one entry per call);
* `World.started` is ghost instrumentation: the step loop records the
  label of each pipeline step at the moment it invokes the step, so that
  theorems can speak about which steps executed.
-/

inductive EntryKind where
  | dir
  | file
  | other
deriving Repr, DecidableEq

/-- One direct child of the working directory: its name, and whether
`Path.is_dir` / `Path.is_file` holds for it (`other` means neither,
e.g. a dangling symlink). -/
structure FsEntry where
  name : String
  kind : EntryKind
deriving Repr, DecidableEq

/-- Static facts about the host system the script runs on. -/
structure Env where
  cmdOk : String → Bool
  cmdStdout : String → String
  cmdStderr : String → String
  installed : String → Bool
  executable : String

/-- The mutable state of one script run. -/
structure World where
  fs : List FsEntry
  stdin : List String
  out : List String
  cmds : List String
  removed : List String
  started : List String
deriving Repr, DecidableEq

def pyPrint (w : World) (s : String) : World :=
  { w with out := w.out ++ [s] }

/-- Python `input()`: consume one stdin line; `none` models `EOFError`. -/
def readLine (w : World) : Option (String × World) :=
  match w.stdin with
  | [] => none
  | s :: rest => some (s, { w with stdin := rest })

/-- Python truthiness of a value that is either `None` or a bool. -/
def truthy : Option Bool → Bool
  | none => false
  | some b => b

/-- `run_command(cmd, description)` of build.py: run a shell command,
report success or failure, return `True` on exit status 0. -/
def run_command (env : Env) (cmd description : String) (w : World) : World × Bool :=
  let w := pyPrint w ("\n🔄 " ++ description ++ "...")
  let w := { w with cmds := w.cmds ++ [cmd] }
  if env.cmdOk cmd then
    let w := pyPrint w ("✅ " ++ description ++ " completed successfully")
    let w := if env.cmdStdout cmd == "" then w else pyPrint w (env.cmdStdout cmd)
    (w, true)
  else
    let w := pyPrint w ("❌ " ++ description ++ " failed:")
    (pyPrint w (env.cmdStderr cmd), false)

/-- `pathlib` glob semantics for the three literal patterns the script
uses: `build` and `dist` match exactly, `*.egg-info` matches any direct
child whose name ends in `.egg-info` (pathlib's `*` also matches hidden
names and the empty prefix). -/
def globMatch (pattern name : String) : Bool :=
  if pattern == "*.egg-info" then name.endsWith ".egg-info" else name == pattern

/-- The body of the inner loop of `clean_build`: `shutil.rmtree` for a
directory, `Path.unlink` for a regular file, nothing for anything else. -/
def cleanEntry (w : World) (e : FsEntry) : World :=
  match e.kind with
  | EntryKind.dir =>
    let w := { w with fs := w.fs.filter (fun x => !(e.name == x.name)),
                      removed := w.removed ++ [e.name] }
    pyPrint w ("   Removed directory: " ++ e.name)
  | EntryKind.file =>
    let w := { w with fs := w.fs.filter (fun x => !(e.name == x.name)),
                      removed := w.removed ++ [e.name] }
    pyPrint w ("   Removed file: " ++ e.name)
  | EntryKind.other => w

/-- One iteration of the outer loop of `clean_build`: glob one pattern
against the current directory and remove every match. -/
def cleanPattern (w : World) (pattern : String) : World :=
  (w.fs.filter (fun e => globMatch pattern e.name)).foldl cleanEntry w

/-- `clean_build()` of build.py.  Note the Python function has no
`return` statement, so its value is `None` (`none` here). -/
def clean_build (w : World) : World × Option Bool :=
  let w := pyPrint w "\n🧹 Cleaning previous build artifacts..."
  (["build", "dist", "*.egg-info"].foldl cleanPattern w, none)

/-- `check_requirements()` of build.py: probe importability of `build`
and `twine`, then pip-install whichever are missing. -/
def check_requirements (env : Env) (w : World) : World × Option Bool :=
  let w := pyPrint w "\n📋 Checking build requirements..."
  let scan := fun (acc : World × List String) (package : String) =>
    if env.installed package then
      (pyPrint acc.1 ("   ✅ " ++ package ++ " is installed"), acc.2)
    else
      (pyPrint acc.1 ("   ❌ " ++ package ++ " is missing"), acc.2 ++ [package])
  let acc := (["build", "twine"]).foldl scan (w, [])
  let w := acc.1
  let missing_packages := acc.2
  if missing_packages.isEmpty then
    (w, some true)
  else
    let w := pyPrint w ("\n📦 Installing missing packages: " ++
      String.intercalate ", " missing_packages)
    let cmd := env.executable ++ " -m pip install " ++
      String.intercalate " " missing_packages
    let r := run_command env cmd "Installing build dependencies" w
    if r.2 then (r.1, some true) else (r.1, some false)

/-- `build_package()` of build.py. -/
def build_package (env : Env) (w : World) : World × Option Bool :=
  let r := run_command env (env.executable ++ " -m build") "Building package" w
  (r.1, some r.2)

/-- `check_package()` of build.py. -/
def check_package (env : Env) (w : World) : World × Option Bool :=
  let r := run_command env "twine check dist/*" "Checking package" w
  (r.1, some r.2)

/-- `upload_to_test_pypi()` of build.py.  Result `none` models an
uncaught `EOFError` from `input()`. -/
def upload_to_test_pypi (env : Env) (w : World) : Option (World × Bool) :=
  let w := pyPrint w "\n⚠️  This will upload to Test PyPI. Continue? (y/N): "
  match readLine w with
  | none => none
  | some (s, w) =>
    if s.toLower != "y" then
      some (pyPrint w "Upload cancelled.", true)
    else
      some (run_command env "twine upload --repository testpypi dist/*"
        "Uploading to Test PyPI" w)

/-- `upload_to_pypi()` of build.py. -/
def upload_to_pypi (env : Env) (w : World) : Option (World × Bool) :=
  let w := pyPrint w
    "\n⚠️  This will upload to PyPI. This action cannot be undone! Continue? (y/N): "
  match readLine w with
  | none => none
  | some (s, w) =>
    if s.toLower != "y" then
      some (pyPrint w "Upload cancelled.", true)
    else
      some (run_command env "twine upload dist/*" "Uploading to PyPI" w)

/-- The `steps` list built in `main` for the build/test-upload/upload
modes. -/
def coreSteps (env : Env) : List ((World → World × Option Bool) × String) :=
  [(fun w => clean_build w, "Clean build artifacts"),
   (fun w => check_requirements env w, "Check requirements"),
   (fun w => build_package env w, "Build package"),
   (fun w => check_package env w, "Check package")]

/-- The `for step_func, step_name in steps` loop of `main`: run each
step in order, and on the first step whose Python return value is falsy
report the step's label and signal failure (`sys.exit(1)` in `main`).
The step's label is recorded in the ghost field `started` at the moment
the step is invoked. -/
def runSteps : List ((World → World × Option Bool) × String) → World → World × Bool
  | [], w => (w, true)
  | (step_func, step_name) :: rest, w =>
    let r := step_func { w with started := w.started ++ [step_name] }
    if truthy r.2 then runSteps rest r.1
    else (pyPrint r.1 ("\n❌ Build failed at step: " ++ step_name), false)

/-- Lines 114-145 of build.py: the part of `main` that dispatches on the
already-lowercased action string.  The `Nat` in the result is the
process exit code. -/
def mainBody (env : Env) (action : String) (w : World) : Option (World × Nat) :=
  if action == "clean" then
    some (pyPrint (clean_build w).1 "\n✅ Clean completed!", 0)
  else if action == "build" || action == "test-upload" || action == "upload" then
    let r := runSteps (coreSteps env) w
    if r.2 then
      let w := pyPrint r.1 "\n✅ Package built successfully!"
      let after : Option World :=
        if action == "test-upload" then
          match upload_to_test_pypi env w with
          | none => none
          | some p => some p.1
        else if action == "upload" then
          match upload_to_pypi env w with
          | none => none
          | some p => some p.1
        else some w
      match after with
      | none => none
      | some w => some (pyPrint w "\n🎉 Build process completed!", 0)
    else some (r.1, 1)
  else
    some (pyPrint w ("❌ Unknown action: " ++ action), 1)

def equalsLine : String := String.mk (List.replicate 60 '=')

/-- `main()` of build.py: banner, action selection (argument or
interactive prompt defaulting to `build`), then `mainBody`.  (Named
`mainEntry` because Lean reserves `main` for executables.) -/
def mainEntry (env : Env) (argv : Option String) (w : World) : Option (World × Nat) :=
  let w := pyPrint w "🏠 Home Assistant Desktop Remote Control - Build Script"
  let w := pyPrint w equalsLine
  match argv with
  | some arg => mainBody env arg.toLower w
  | none =>
    let w := pyPrint w "\nAvailable actions:"
    let w := pyPrint w "  build       - Clean, build, and check package"
    let w := pyPrint w "  test-upload - Upload to Test PyPI"
    let w := pyPrint w "  upload      - Upload to PyPI"
    let w := pyPrint w "  clean       - Clean build artifacts only"
    let w := pyPrint w "\nUsage: python build.py [action]"
    let w := pyPrint w "\nEnter action (or press Enter for \x27build\x27): "
    match readLine w with
    | none => none
    | some (s, w) =>
      mainBody env (if s.toLower == "" then "build" else s.toLower) w

/-- Analysis helper: entries that `clean_build` actually deletes
(directories and regular files, but not `other` entries). -/
def isRemovable (e : FsEntry) : Bool :=
  match e.kind with
  | EntryKind.other => false
  | _ => true

/-- Analysis helper: does processing the matched list `L` delete the
name `n`? -/
def killed (L : List FsEntry) (n : String) : Bool :=
  L.any (fun e => isRemovable e && (e.name == n))

/-- Analysis helper: console lines produced for one matched entry. -/
def cleanMsg (e : FsEntry) : List String :=
  match e.kind with
  | EntryKind.dir => ["   Removed directory: " ++ e.name]
  | EntryKind.file => ["   Removed file: " ++ e.name]
  | EntryKind.other => []

/-- Analysis helper: names deleted for one matched list. -/
def removedNames (L : List FsEntry) : List String :=
  (L.filter isRemovable).map FsEntry.name

/-- Analysis helper: a name matched by at least one of the three cleanup
patterns. -/
def matchesAny (n : String) : Bool :=
  globMatch "build" n || globMatch "dist" n || globMatch "*.egg-info" n

/-- Analysis helper: the exact pip command `check_requirements` builds
from the missing-package list. -/
def pipCmd (env : Env) : String :=
  env.executable ++ " -m pip install " ++
    String.intercalate " " (["build", "twine"].filter (fun p => !(env.installed p)))

/-- A host on which every external command succeeds with empty output
and both required packages are importable. -/
def envOK : Env :=
  { cmdOk := fun _ => true, cmdStdout := fun _ => "", cmdStderr := fun _ => "",
    installed := fun _ => true, executable := "python3" }

/-- Same host, but with no required package importable. -/
def envNone : Env :=
  { envOK with installed := fun _ => false }

def w0 : World :=
  { fs := [], stdin := [], out := [], cmds := [], removed := [], started := [] }

def wN : World := { w0 with stdin := ["n"] }

def wY : World := { w0 with stdin := ["y"] }

/-- Working directory containing only a non-matching entry (already
clean with respect to all three cleanup patterns). -/
def wSrc : World := { w0 with fs := [⟨"src", EntryKind.dir⟩] }

theorem pyPrint_fs (w : World) (s : String) : (pyPrint w s).fs = w.fs := rfl

theorem pyPrint_stdin (w : World) (s : String) : (pyPrint w s).stdin = w.stdin := rfl

theorem pyPrint_cmds (w : World) (s : String) : (pyPrint w s).cmds = w.cmds := rfl

theorem pyPrint_removed (w : World) (s : String) : (pyPrint w s).removed = w.removed := rfl

theorem pyPrint_started (w : World) (s : String) : (pyPrint w s).started = w.started := rfl

theorem pyPrint_out (w : World) (s : String) : (pyPrint w s).out = w.out ++ [s] := rfl

theorem foldl_cleanEntry_eq (L : List FsEntry) (w : World) :
    L.foldl cleanEntry w =
      { w with fs := w.fs.filter (fun x => !(killed L x.name)),
               removed := w.removed ++ removedNames L,
               out := w.out ++ (L.map cleanMsg).flatten } := by
  induction L generalizing w with
  | nil =>
    rcases w with ⟨fs, stdin, out, cmds, removed, started⟩
    simp [killed, removedNames]
  | cons e L ih =>
    rw [List.foldl_cons, ih]
    rcases e with ⟨n, k⟩
    rcases w with ⟨fs, stdin, out, cmds, removed, started⟩
    cases k with
    | dir =>
      simp only [cleanEntry, pyPrint, killed, removedNames, cleanMsg, isRemovable,
        List.any_cons, List.filter_cons, List.map_cons, List.flatten_cons,
        List.filter_filter, List.append_assoc, Bool.true_and, Bool.not_or,
        List.singleton_append, List.cons_append, World.mk.injEq, and_true, true_and]
      constructor
      · apply List.filter_congr
        intro x _
        cases hx : n == x.name <;> simp [hx, killed]
      · simp
    | file =>
      simp only [cleanEntry, pyPrint, killed, removedNames, cleanMsg, isRemovable,
        List.any_cons, List.filter_cons, List.map_cons, List.flatten_cons,
        List.filter_filter, List.append_assoc, Bool.true_and, Bool.not_or,
        List.singleton_append, List.cons_append, World.mk.injEq, and_true, true_and]
      constructor
      · apply List.filter_congr
        intro x _
        cases hx : n == x.name <;> simp [hx, killed]
      · simp
    | other =>
      simp [cleanEntry, killed, removedNames, cleanMsg, isRemovable]

theorem cleanPattern_eq (w : World) (p : String) :
    cleanPattern w p =
      { w with
        fs := w.fs.filter
          (fun x => !(killed (w.fs.filter (fun e => globMatch p e.name)) x.name)),
        removed := w.removed ++ removedNames (w.fs.filter (fun e => globMatch p e.name)),
        out := w.out ++ ((w.fs.filter (fun e => globMatch p e.name)).map cleanMsg).flatten } :=
  foldl_cleanEntry_eq _ _

theorem isRemovable_of_ne_other (e : FsEntry) (h : e.kind ≠ EntryKind.other) :
    isRemovable e = true := by
  rcases e with ⟨n, k⟩
  cases k <;> simp_all [isRemovable]

theorem mem_cleanPattern (w : World) (p : String) (x : FsEntry)
    (hx : x ∈ (cleanPattern w p).fs) :
    x ∈ w.fs ∧ (globMatch p x.name = true → x.kind = EntryKind.other) := by
  rw [cleanPattern_eq] at hx
  simp only [List.mem_filter] at hx
  refine ⟨hx.1, fun hg => ?_⟩
  by_contra hk
  have hmem : x ∈ w.fs.filter (fun e => globMatch p e.name) :=
    List.mem_filter.mpr ⟨hx.1, hg⟩
  have : killed (w.fs.filter (fun e => globMatch p e.name)) x.name = true := by
    unfold killed
    rw [List.any_eq_true]
    exact ⟨x, hmem, by simp [isRemovable_of_ne_other x hk]⟩
  rw [this] at hx
  simp at hx

theorem killed_eq_false (L : List FsEntry) (n : String)
    (h : ∀ e ∈ L, isRemovable e = false) : killed L n = false := by
  unfold killed
  rw [List.any_eq_false]
  intro e he
  simp [h e he]

theorem removedNames_eq_nil (L : List FsEntry)
    (h : ∀ e ∈ L, isRemovable e = false) : removedNames L = [] := by
  unfold removedNames
  have : L.filter isRemovable = [] := by
    rw [List.filter_eq_nil_iff]
    intro a ha
    simp [h a ha]
  rw [this]
  rfl

theorem cleanMsg_join_eq_nil (L : List FsEntry)
    (h : ∀ e ∈ L, cleanMsg e = []) : (L.map cleanMsg).flatten = [] := by
  induction L with
  | nil => rfl
  | cons e L ih =>
    rw [List.map_cons, List.flatten_cons, h e (by simp),
      ih (fun x hx => h x (by simp [hx]))]
    rfl

theorem cleanPattern_id (w : World) (p : String)
    (h : ∀ x ∈ w.fs, globMatch p x.name = true → x.kind = EntryKind.other) :
    cleanPattern w p = w := by
  rw [cleanPattern_eq]
  have hall : ∀ e ∈ w.fs.filter (fun e => globMatch p e.name),
      e.kind = EntryKind.other := by
    intro e he
    rw [List.mem_filter] at he
    exact h e he.1 he.2
  have h1 : ∀ e ∈ w.fs.filter (fun e => globMatch p e.name), isRemovable e = false := by
    intro e he
    have := hall e he
    rcases e with ⟨n, k⟩
    simp only at this
    rw [this]
    rfl
  have h2 : ∀ e ∈ w.fs.filter (fun e => globMatch p e.name), cleanMsg e = [] := by
    intro e he
    have := hall e he
    rcases e with ⟨n, k⟩
    simp only at this
    rw [cleanMsg, this]
  have hk : ∀ x : FsEntry,
      (!(killed (w.fs.filter (fun e => globMatch p e.name)) x.name)) = true := by
    intro x
    rw [killed_eq_false _ _ h1]
    rfl
  rcases w with ⟨fs, stdin, out, cmds, removed, started⟩
  simp only [World.mk.injEq]
  refine ⟨?_, trivial, ?_, trivial, ?_, trivial⟩
  · rw [List.filter_eq_self.mpr (fun a _ => hk a)]
  · rw [cleanMsg_join_eq_nil _ h2]
    simp
  · rw [removedNames_eq_nil _ h1]
    simp

theorem cleanPattern_stdin (w : World) (p : String) :
    (cleanPattern w p).stdin = w.stdin := by
  rw [cleanPattern_eq]

theorem cleanPattern_cmds (w : World) (p : String) :
    (cleanPattern w p).cmds = w.cmds := by
  rw [cleanPattern_eq]

theorem cleanPattern_started (w : World) (p : String) :
    (cleanPattern w p).started = w.started := by
  rw [cleanPattern_eq]

theorem clean_build_unfold (w : World) :
    clean_build w =
      (cleanPattern (cleanPattern (cleanPattern
        (pyPrint w "\n🧹 Cleaning previous build artifacts...") "build") "dist")
        "*.egg-info", none) := rfl

theorem clean_build_stdin (w : World) : (clean_build w).1.stdin = w.stdin := by
  rw [clean_build_unfold]
  simp only [cleanPattern_stdin]
  rfl

theorem clean_build_cmds (w : World) : (clean_build w).1.cmds = w.cmds := by
  rw [clean_build_unfold]
  simp only [cleanPattern_cmds]
  rfl

theorem clean_build_started (w : World) : (clean_build w).1.started = w.started := by
  rw [clean_build_unfold]
  simp only [cleanPattern_started]
  rfl

theorem clean_build_survivors (w : World) (x : FsEntry)
    (hx : x ∈ (clean_build w).1.fs) (hm : matchesAny x.name = true) :
    x.kind = EntryKind.other := by
  have hx3 : x ∈ (cleanPattern (cleanPattern (cleanPattern
      (pyPrint w "\n🧹 Cleaning previous build artifacts...") "build") "dist")
      "*.egg-info").fs := hx
  have h3 := mem_cleanPattern _ "*.egg-info" x hx3
  have h2 := mem_cleanPattern _ "dist" x h3.1
  have h1 := mem_cleanPattern _ "build" x h2.1
  unfold matchesAny at hm
  rcases Bool.or_eq_true_iff.mp hm with hm | hm
  · rcases Bool.or_eq_true_iff.mp hm with hm | hm
    · exact h1.2 hm
    · exact h2.2 hm
  · exact h3.2 hm

/-- Running `clean_build` a second time right after a first run only
reprints the banner: the filesystem, the removal log and every other
state component are exactly those left by the first run (and the return
value is again `None`). -/
theorem clean_build_idem (w : World) :
    clean_build (clean_build w).1 =
      (pyPrint (clean_build w).1 "\n🧹 Cleaning previous build artifacts...", none) := by
  have hid : ∀ p, (p = "build" ∨ p = "dist" ∨ p = "*.egg-info") →
      ∀ v : World, v.fs = (clean_build w).1.fs →
      cleanPattern v p = v := by
    intro p hp v hv
    apply cleanPattern_id
    intro x hx hg
    apply clean_build_survivors w x (hv ▸ hx)
    unfold matchesAny
    rcases hp with rfl | rfl | rfl
    · rw [hg]
      rfl
    · rw [hg]
      simp
    · rw [hg]
      simp
  rw [clean_build_unfold ((clean_build w).1)]
  rw [hid "build" (by simp) _ (pyPrint_fs _ _)]
  rw [hid "dist" (by simp) _ (pyPrint_fs _ _)]
  rw [hid "*.egg-info" (by simp) _ (pyPrint_fs _ _)]

/-- If nothing in the working directory matches any cleanup pattern,
`clean_build` only prints its banner and changes nothing. -/
theorem clean_build_already_clean (w : World)
    (h : ∀ e ∈ w.fs, matchesAny e.name = false) :
    clean_build w =
      (pyPrint w "\n🧹 Cleaning previous build artifacts...", none) := by
  have hid : ∀ p, (p = "build" ∨ p = "dist" ∨ p = "*.egg-info") →
      ∀ v : World, v.fs = w.fs →
      cleanPattern v p = v := by
    intro p hp v hv
    apply cleanPattern_id
    intro x hx hg
    exfalso
    have hfalse := h x (hv ▸ hx)
    unfold matchesAny at hfalse
    rcases hp with rfl | rfl | rfl
    · rw [hg] at hfalse
      simp at hfalse
    · rw [hg] at hfalse
      simp at hfalse
    · rw [hg] at hfalse
      simp at hfalse
  rw [clean_build_unfold w]
  rw [hid "build" (by simp) _ (pyPrint_fs _ _)]
  rw [hid "dist" (by simp) _ (pyPrint_fs _ _)]
  rw [hid "*.egg-info" (by simp) _ (pyPrint_fs _ _)]

theorem run_command_cmds (env : Env) (cmd d : String) (w : World) :
    (run_command env cmd d w).1.cmds = w.cmds ++ [cmd] := by
  unfold run_command
  cases h : env.cmdOk cmd
  · simp [pyPrint, h]
  · cases h2 : env.cmdStdout cmd == "" <;> simp [pyPrint, h, h2]

theorem run_command_ret (env : Env) (cmd d : String) (w : World) :
    (run_command env cmd d w).2 = env.cmdOk cmd := by
  unfold run_command
  cases h : env.cmdOk cmd <;> simp [h]

theorem ite_pair_fst (P : Prop) [Decidable P] (a : World) (x y : Option Bool) :
    (if P then (a, x) else (a, y)).1 = a := by
  split <;> rfl

theorem ite_pair_snd (P : Prop) [Decidable P] (a : World) (x y : Option Bool) :
    (if P then (a, x) else (a, y)).2 = if P then x else y := by
  split <;> rfl

theorem ite_some_bool (b : Bool) :
    (if b = true then some true else some false) = some b := by
  cases b <;> rfl

theorem mainBody_build_fail_eq (env : Env) (w : World) (action : String)
    (h : action = "build" ∨ action = "test-upload" ∨ action = "upload") :
    mainBody env action w =
      some (pyPrint
        (clean_build { w with started := w.started ++ ["Clean build artifacts"] }).1
        "\n❌ Build failed at step: Clean build artifacts", 1) := by
  rcases h with rfl | rfl | rfl <;> rfl

/-- Claim C1 (code bug evidence).  In mode `build` on a host where every
external command would succeed and both required packages are
importable, the run does NOT execute all four core steps: only the clean
step starts (`started`), no external command is ever invoked (`cmds`),
the loop reports "Build failed at step: Clean build artifacts", and the
process exits 1 — because `clean_build` has no `return` statement, so
the step loop treats its `None` as a failed step.  The claim says all
four steps execute and the success message follows. -/
theorem c1_build_mode_halts_at_clean_step :
    mainBody envOK "build" w0 =
      some ({ fs := [], stdin := [],
              out := ["\n🧹 Cleaning previous build artifacts...",
                      "\n❌ Build failed at step: Clean build artifacts"],
              cmds := [], removed := [], started := ["Clean build artifacts"] }, 1) := rfl

/-- Claim C2 (code bug evidence).  In mode `build` on a host where every
external command would succeed, no external command is invoked at all
(so no pipeline step failed in the claim's sense), yet the exit code is
1 rather than the claimed 0. -/
theorem c2_successful_host_build_exits_one :
    (mainBody envOK "build" w0).map Prod.snd = some 1 ∧
    (mainBody envOK "build" w0).map (fun r => r.1.cmds) = some [] := ⟨rfl, rfl⟩

/-- Claim C3 (confirmed).  In every build/test-upload/upload run the
pipeline halts at the step whose Python return value is falsy — which is
always the first step, `clean_build`, since it returns `None`: no
subsequent step starts, the failing step's label is reported, no
external command of a later step is invoked, and the process exits 1. -/
theorem c3_failing_step_halts_pipeline (env : Env) (w : World) (action : String)
    (h : action = "build" ∨ action = "test-upload" ∨ action = "upload") :
    (mainBody env action w).map Prod.snd = some 1 ∧
    (mainBody env action w).map (fun r => r.1.started) =
      some (w.started ++ ["Clean build artifacts"]) ∧
    (mainBody env action w).map
      (fun r => decide ("\n❌ Build failed at step: Clean build artifacts" ∈ r.1.out)) =
      some true ∧
    (mainBody env action w).map (fun r => r.1.cmds) = some w.cmds := by
  rw [mainBody_build_fail_eq env w action h]
  refine ⟨rfl, ?_, ?_, ?_⟩
  · simp [Option.map_some]
    rw [pyPrint_started, clean_build_started]
  · simp [Option.map_some]
    rw [pyPrint_out]
    simp
  · simp [Option.map_some]
    rw [pyPrint_cmds, clean_build_cmds]

theorem c3_witness :
    ("build" = "build" ∨ "build" = "test-upload" ∨ "build" = "upload") ∧
    ((mainBody envOK "build" w0).map Prod.snd = some 1 ∧
     (mainBody envOK "build" w0).map (fun r => r.1.started) =
       some (w0.started ++ ["Clean build artifacts"]) ∧
     (mainBody envOK "build" w0).map
       (fun r => decide ("\n❌ Build failed at step: Clean build artifacts" ∈ r.1.out)) =
       some true ∧
     (mainBody envOK "build" w0).map (fun r => r.1.cmds) = some w0.cmds) :=
  ⟨Or.inl rfl, c3_failing_step_halts_pipeline envOK w0 "build" (Or.inl rfl)⟩

/-- Claim C4 (code bug evidence).  A `test-upload` run on a host where
every external command would succeed, with the declining answer "n"
waiting on stdin: the run exits 1 at the clean step, never shows the
confirmation prompt (stdin is untouched), never prints
"Upload cancelled.", and never invokes any command — so the claimed
"decline, report cancelled, exit 0" path is unreachable. -/
theorem c4_decline_path_unreachable :
    mainBody envOK "test-upload" wN =
      some ({ fs := [], stdin := ["n"],
              out := ["\n🧹 Cleaning previous build artifacts...",
                      "\n❌ Build failed at step: Clean build artifacts"],
              cmds := [], removed := [], started := ["Clean build artifacts"] }, 1) := rfl

/-- Claim C7 (code bug evidence).  An `upload` run on a host where every
external command would succeed, with the confirming answer "y" waiting
on stdin: the run exits 1 at the clean step; the upload prompt is never
shown (stdin untouched) and no upload command is ever invoked. -/
theorem c7_upload_command_never_invoked :
    mainBody envOK "upload" wY =
      some ({ fs := [], stdin := ["y"],
              out := ["\n🧹 Cleaning previous build artifacts...",
                      "\n❌ Build failed at step: Clean build artifacts"],
              cmds := [], removed := [], started := ["Clean build artifacts"] }, 1) := rfl

/-- Claim C6 (confirmed).  In mode `clean`, the run performs exactly the
cleanup (`clean_build`) followed by the completion message and exits 0;
no external command is invoked, no pipeline-loop step starts, and stdin
is never read. -/
theorem c6_clean_mode_runs_only_cleanup (env : Env) (w : World) :
    mainBody env "clean" w =
      some (pyPrint (clean_build w).1 "\n✅ Clean completed!", 0) ∧
    (clean_build w).1.cmds = w.cmds ∧
    (clean_build w).1.started = w.started ∧
    (clean_build w).1.stdin = w.stdin :=
  ⟨rfl, clean_build_cmds w, clean_build_started w, clean_build_stdin w⟩

/-- Claim C5 (confirmed).  Any action string other than the four known
modes only prints the unknown-action message and exits 1; the state is
otherwise untouched, so no pipeline step (cleanup, requirement check,
build, package check, upload) executes. -/
theorem c5_unknown_action_no_steps (env : Env) (w : World) (action : String)
    (h1 : action ≠ "clean") (h2 : action ≠ "build")
    (h3 : action ≠ "test-upload") (h4 : action ≠ "upload") :
    mainBody env action w = some (pyPrint w ("❌ Unknown action: " ++ action), 1) ∧
    (mainBody env action w).map (fun r => r.1.cmds) = some w.cmds ∧
    (mainBody env action w).map (fun r => r.1.started) = some w.started ∧
    (mainBody env action w).map (fun r => r.1.removed) = some w.removed ∧
    (mainBody env action w).map (fun r => r.1.fs) = some w.fs := by
  have b1 : (action == "clean") = false := by
    cases hb : action == "clean" with
    | false => rfl
    | true => exact absurd (eq_of_beq hb) h1
  have b2 : (action == "build") = false := by
    cases hb : action == "build" with
    | false => rfl
    | true => exact absurd (eq_of_beq hb) h2
  have b3 : (action == "test-upload") = false := by
    cases hb : action == "test-upload" with
    | false => rfl
    | true => exact absurd (eq_of_beq hb) h3
  have b4 : (action == "upload") = false := by
    cases hb : action == "upload" with
    | false => rfl
    | true => exact absurd (eq_of_beq hb) h4
  have hmain : mainBody env action w =
      some (pyPrint w ("❌ Unknown action: " ++ action), 1) := by
    unfold mainBody
    rw [b1, b2, b3, b4]
    simp
  refine ⟨hmain, ?_, ?_, ?_, ?_⟩ <;> rw [hmain] <;> rfl

theorem c5_witness :
    ("deploy" ≠ "clean") ∧
    (mainBody envOK "deploy" w0 =
      some (pyPrint w0 ("❌ Unknown action: " ++ "deploy"), 1) ∧
    (mainBody envOK "deploy" w0).map (fun r => r.1.cmds) = some w0.cmds ∧
    (mainBody envOK "deploy" w0).map (fun r => r.1.started) = some w0.started ∧
    (mainBody envOK "deploy" w0).map (fun r => r.1.removed) = some w0.removed ∧
    (mainBody envOK "deploy" w0).map (fun r => r.1.fs) = some w0.fs) :=
  ⟨by decide,
   c5_unknown_action_no_steps envOK w0 "deploy" (by decide) (by decide) (by decide) (by decide)⟩

/-- Claim C8 (confirmed).  If both `build` and `twine` are importable,
the requirement check succeeds without invoking any command; otherwise
it invokes exactly one installer command, listing exactly the missing
packages (`pipCmd`), and returns failure exactly when that installer
command fails. -/
theorem c8_check_requirements_spec (env : Env) (w : World) :
    ((env.installed "build" = true ∧ env.installed "twine" = true) →
      (check_requirements env w).2 = some true ∧
      (check_requirements env w).1.cmds = w.cmds) ∧
    (¬(env.installed "build" = true ∧ env.installed "twine" = true) →
      (check_requirements env w).1.cmds = w.cmds ++ [pipCmd env] ∧
      (check_requirements env w).2 = some (env.cmdOk (pipCmd env))) := by
  cases hb : env.installed "build" <;> cases ht : env.installed "twine"
  · refine ⟨fun hins => absurd hins.1 (by simp [hb]), fun _ => ?_⟩
    have hp : pipCmd env =
        env.executable ++ " -m pip install " ++
          String.intercalate " " ["build", "twine"] := by
      simp [pipCmd, hb, ht]
    rw [hp]
    simp [check_requirements, hb, ht, List.foldl_cons, List.foldl_nil,
      List.isEmpty, run_command_cmds, run_command_ret, ite_pair_fst,
      ite_pair_snd, ite_some_bool, pyPrint]
  · refine ⟨fun hins => absurd hins.1 (by simp [hb]), fun _ => ?_⟩
    have hp : pipCmd env =
        env.executable ++ " -m pip install " ++
          String.intercalate " " ["build"] := by
      simp [pipCmd, hb, ht]
    rw [hp]
    simp [check_requirements, hb, ht, List.foldl_cons, List.foldl_nil,
      List.isEmpty, run_command_cmds, run_command_ret, ite_pair_fst,
      ite_pair_snd, ite_some_bool, pyPrint]
  · refine ⟨fun hins => absurd hins.2 (by simp [ht]), fun _ => ?_⟩
    have hp : pipCmd env =
        env.executable ++ " -m pip install " ++
          String.intercalate " " ["twine"] := by
      simp [pipCmd, hb, ht]
    rw [hp]
    simp [check_requirements, hb, ht, List.foldl_cons, List.foldl_nil,
      List.isEmpty, run_command_cmds, run_command_ret, ite_pair_fst,
      ite_pair_snd, ite_some_bool, pyPrint]
  · refine ⟨fun _ => ?_, fun hmiss => absurd ⟨rfl, rfl⟩ hmiss⟩
    constructor <;>
      simp [check_requirements, hb, ht, List.foldl_cons, List.foldl_nil,
        List.isEmpty, pyPrint]

theorem c8_witness :
    (¬(envNone.installed "build" = true ∧ envNone.installed "twine" = true)) ∧
    ((check_requirements envNone w0).1.cmds = w0.cmds ++ [pipCmd envNone] ∧
     (check_requirements envNone w0).2 = some (envNone.cmdOk (pipCmd envNone))) :=
  ⟨by decide, (c8_check_requirements_spec envNone w0).2 (by decide)⟩

/-- Claim C9 (confirmed).  Cleanup is idempotent: a second `clean_build`
right after a first one removes nothing and changes nothing except
reprinting the banner line, and again returns `None` without error; and
on an already-clean directory (no entry matching `build`, `dist` or
`*.egg-info`) a run only prints the banner and is not an error. -/
theorem c9_clean_idempotent_and_tolerant (w : World) :
    clean_build (clean_build w).1 =
      (pyPrint (clean_build w).1 "\n🧹 Cleaning previous build artifacts...", none) ∧
    ((∀ e ∈ w.fs, matchesAny e.name = false) →
      clean_build w =
        (pyPrint w "\n🧹 Cleaning previous build artifacts...", none)) :=
  ⟨clean_build_idem w, clean_build_already_clean w⟩

theorem c9_witness :
    (∀ e ∈ wSrc.fs, matchesAny e.name = false) ∧
    clean_build wSrc =
      (pyPrint wSrc "\n🧹 Cleaning previous build artifacts...", none) :=
  ⟨by decide, (c9_clean_idempotent_and_tolerant wSrc).2 (by decide)⟩

/-- Claim C10 (confirmed).  At either upload prompt, the upload command
is invoked (exactly once, appended to `cmds`) precisely when the typed
line lowercases to exactly "y"; on any other input the function invokes
nothing, prints "Upload cancelled." and returns `True` (success). -/
theorem c10_prompt_confirms_iff_lower_y (env : Env) (w : World) (s : String)
    (rest : List String) (h : w.stdin = s :: rest) :
    ((upload_to_test_pypi env w).map (fun r => r.1.cmds) =
      some (w.cmds ++ (if s.toLower == "y"
        then ["twine upload --repository testpypi dist/*"] else []))) ∧
    ((upload_to_test_pypi env w).map Prod.snd =
      some (if s.toLower == "y"
        then env.cmdOk "twine upload --repository testpypi dist/*" else true)) ∧
    ((s.toLower == "y") = false →
      (upload_to_test_pypi env w).map
        (fun r => decide ("Upload cancelled." ∈ r.1.out)) = some true) ∧
    ((upload_to_pypi env w).map (fun r => r.1.cmds) =
      some (w.cmds ++ (if s.toLower == "y" then ["twine upload dist/*"] else []))) ∧
    ((upload_to_pypi env w).map Prod.snd =
      some (if s.toLower == "y" then env.cmdOk "twine upload dist/*" else true)) ∧
    ((s.toLower == "y") = false →
      (upload_to_pypi env w).map
        (fun r => decide ("Upload cancelled." ∈ r.1.out)) = some true) := by
  rcases w with ⟨fs, stdin, out, cmds, removed, started⟩
  simp only at h
  subst h
  cases hy : s.toLower == "y"
  · have hne : s.toLower ≠ "y" := ne_of_beq_false hy
    simp [upload_to_test_pypi, upload_to_pypi, readLine, pyPrint, hy, hne]
  · have heq : s.toLower = "y" := eq_of_beq hy
    simp [upload_to_test_pypi, upload_to_pypi, readLine, pyPrint, hy, heq,
      run_command_cmds, run_command_ret]

theorem c10_witness :
    wY.stdin = "y" :: [] ∧
    (((upload_to_test_pypi envOK wY).map (fun r => r.1.cmds) =
      some (wY.cmds ++ (if "y".toLower == "y"
        then ["twine upload --repository testpypi dist/*"] else []))) ∧
    ((upload_to_test_pypi envOK wY).map Prod.snd =
      some (if "y".toLower == "y"
        then envOK.cmdOk "twine upload --repository testpypi dist/*" else true)) ∧
    (("y".toLower == "y") = false →
      (upload_to_test_pypi envOK wY).map
        (fun r => decide ("Upload cancelled." ∈ r.1.out)) = some true) ∧
    ((upload_to_pypi envOK wY).map (fun r => r.1.cmds) =
      some (wY.cmds ++ (if "y".toLower == "y" then ["twine upload dist/*"] else []))) ∧
    ((upload_to_pypi envOK wY).map Prod.snd =
      some (if "y".toLower == "y" then envOK.cmdOk "twine upload dist/*" else true)) ∧
    (("y".toLower == "y") = false →
      (upload_to_pypi envOK wY).map
        (fun r => decide ("Upload cancelled." ∈ r.1.out)) = some true)) :=
  ⟨rfl, c10_prompt_confirms_iff_lower_y envOK wY "y" [] rfl⟩
